import Mathlib

/-!
Verification development for the `ai_voice_journal` call-session engine.

Shallow embedding of:
* the audio I/O / VAD hook (`hooks/useSimpleAudioPlayer.ts`, interrupt-enabled
  revision), namespace `Player`;
* the transport client (`services/gemini-live.ts`), namespace `Gemini`;
* the mood inference module (`types/conversationMood.ts`), namespace `Mood`;
* the session coordinator (`hooks/useCallSession.ts`), namespace `Coord`;
* the journal summarization client (`services/gemini-rest.ts`), namespace `Rest`.

Asynchronous functions are split at their `await` points into atomic step
functions; every mutation inside one synchronous block is one Lean function.
`Date.now()` is abstracted to an explicit `now : Nat` parameter, audio levels
(floats in the source) are rationals, and the RMS computation over base64 PCM
is abstracted to the level value it produces.
-/

namespace Player

/-- VAD tuning options of `useSimpleAudioPlayer` (thresholds are floats in the
source, modelled as rationals). -/
structure VadConfig where
  speechThreshold : ℚ
  silenceThreshold : ℚ
  speechDebounceMs : Nat
  silenceDebounceMs : Nat
  deriving Repr, DecidableEq

/-- The configuration `useCallSession` passes to the hook:
`speechThreshold: 0.08, silenceThreshold: 0.02, speechDebounceMs: 300,
silenceDebounceMs: 500`. -/
def callSessionVadConfig : VadConfig :=
  { speechThreshold := 8/100
    silenceThreshold := 2/100
    speechDebounceMs := 300
    silenceDebounceMs := 500 }

/-- The mutable refs/state of the `useSimpleAudioPlayer` hook.  Timer refs are
modelled as the absolute deadline (`setTimeout` call time + delay) of the
pending callback, `none` when no timer is pending.  `turnId` stands for the
`turn-${Date.now()}` string; `pendingChunks` is an `Int` so that the
non-negativity claimed of it is a theorem rather than a typing artifact. -/
structure PlayerState where
  pendingChunks : Int
  isPlaying : Bool
  isSpeaking : Bool
  isAiPlaying : Bool
  isInterrupted : Bool
  isStopping : Bool
  lastPlaybackTime : Nat
  turnId : Nat
  wasSpeaking : Bool
  speechStartTimer : Option Nat
  speechEndTimer : Option Nat
  deriving Repr, DecidableEq

/-- Initial ref values of the hook (counters zero, flags false, no timers). -/
def initPlayerState : PlayerState :=
  { pendingChunks := 0
    isPlaying := false
    isSpeaking := false
    isAiPlaying := false
    isInterrupted := false
    isStopping := false
    lastPlaybackTime := 0
    turnId := 0
    wasSpeaking := false
    speechStartTimer := none
    speechEndTimer := none }

/-- Events the VAD emits upward (the `onSpeechStart` / `onSpeechEnd`
callbacks). -/
inductive VadEvent
  | speechStart
  | speechEnd
  deriving Repr, DecidableEq

/-- Body of the speech-start debounce `setTimeout` callback. -/
def fireSpeechStart (st : PlayerState) : PlayerState :=
  { st with wasSpeaking := true, isSpeaking := true, speechStartTimer := none }

/-- Body of the speech-end debounce `setTimeout` callback. -/
def fireSpeechEnd (st : PlayerState) : PlayerState :=
  { st with wasSpeaking := false, isSpeaking := false, speechEndTimer := none }

/-- Source `processVAD`: classify one microphone frame.  The level argument is the
result of `calculateAudioLevel` on the frame.  Mirrors the source: early
return while AI audio is pending/playing or within 1500 ms of playback end
(`Date.now() - lastPlaybackTimeRef.current < 1500`), hysteresis comparison
against the two thresholds, debounce timers started only when absent. -/
def processVAD (cfg : VadConfig) (st : PlayerState) (now : Nat) (level : ℚ) :
    PlayerState :=
  if 0 < st.pendingChunks ∨ st.isAiPlaying = true then st
  else if now < st.lastPlaybackTime + 1500 then st
  else
    if cfg.speechThreshold < level ∧ st.wasSpeaking = false then
      let st1 := { st with speechEndTimer := none }
      match st1.speechStartTimer with
      | none => { st1 with speechStartTimer := some (now + cfg.speechDebounceMs) }
      | some _ => st1
    else if level < cfg.silenceThreshold ∧ st.wasSpeaking = true then
      let st1 := { st with speechStartTimer := none }
      match st1.speechEndTimer with
      | none => { st1 with speechEndTimer := some (now + cfg.silenceDebounceMs) }
      | some _ => st1
    else st

/-- The synchronous prefix of `playAudio` (everything before the `await
ExpoPlayAudioStream.playSound(...)`).  Returns the new state and `some turnId`
when a native playback call was submitted (creating a pending completion,
see `playAudioPost`), `none` when the call returned early.  `len` is
`base64Audio.length`; the `setSoundConfig` reconfiguration on a fresh turn is
fire-and-forget and touches no modelled state. -/
def playAudioPre (st : PlayerState) (now : Nat) (len : Nat) :
    PlayerState × Option Nat :=
  if st.isInterrupted = true then (st, none)
  else
    -- (engine reconfiguration when pendingChunks = 0: no modelled effect)
    if st.isInterrupted = true then (st, none)  -- re-check in the same block
    else
      let st1 := { st with
        pendingChunks := st.pendingChunks + 1
        isPlaying := true
        isAiPlaying := true }
      if len < 100 then
        -- data-length rejection: decrement again inside the same block
        let c := max 0 (st1.pendingChunks - 1)
        if c = 0 then
          ({ st1 with pendingChunks := c, isPlaying := false,
                      lastPlaybackTime := now }, none)
        else ({ st1 with pendingChunks := c }, none)
      else (st1, some st.turnId)

/-- The continuation of `playAudio` after `playSound` settles; the success and
failure paths run the identical decrement block. -/
def playAudioPost (st : PlayerState) (now : Nat) : PlayerState :=
  let c := max 0 (st.pendingChunks - 1)
  if c = 0 then
    { st with pendingChunks := c, isPlaying := false, lastPlaybackTime := now }
  else { st with pendingChunks := c }

/-- The synchronous prefix of `stopPlaying`: the double-execution guard and
the state zeroing performed before any native call. -/
def stopPlayingPre (st : PlayerState) : PlayerState :=
  if st.isStopping = true then st
  else
    { st with isStopping := true, pendingChunks := 0, isPlaying := false,
              isAiPlaying := false }

/-- The `finally` block of `stopPlaying` (after the guarded native
clear/stop calls, whose failures are swallowed). -/
def stopPlayingPost (st : PlayerState) : PlayerState :=
  if st.isStopping = true then { st with isStopping := false } else st

/-- First instruction of `interruptAI`: set the interrupt flag before
anything else. -/
def interruptSet (st : PlayerState) : PlayerState :=
  { st with isInterrupted := true }

/-- Tail of `interruptAI` after `stopPlaying` resolved: mint a fresh turn id
and clear the interrupt flag (then `resumeSound`, no modelled state). -/
def interruptFinish (st : PlayerState) (now : Nat) : PlayerState :=
  { st with turnId := now, isInterrupted := false }

/-- Body of the 500 ms `setTimeout` scheduled by `onTurnComplete`. -/
def onTurnCompleteFire (st : PlayerState) (now : Nat) : PlayerState :=
  if st.pendingChunks = 0 then
    { st with isPlaying := false, isAiPlaying := false, lastPlaybackTime := now }
  else st

/-- Atomic steps of the coordinator operations named by the play-state
invariant: the synchronous segments of `playAudio`, `stopPlaying`,
`interruptAI` and the `onTurnComplete` timeout, in any order. -/
inductive PEvent
  | playPre (now len : Nat)
  | playPost (now : Nat)
  | stopPre
  | stopPost
  | interruptSet
  | interruptFinish (now : Nat)
  | turnCompleteFire (now : Nat)
  deriving Repr, DecidableEq

/-- One atomic step of the audio coordinator. -/
def stepP (st : PlayerState) : PEvent → PlayerState
  | .playPre now len => (playAudioPre st now len).1
  | .playPost now => playAudioPost st now
  | .stopPre => stopPlayingPre st
  | .stopPost => stopPlayingPost st
  | .interruptSet => interruptSet st
  | .interruptFinish now => interruptFinish st now
  | .turnCompleteFire now => onTurnCompleteFire st now

/-- Run a sequence of atomic steps. -/
def runP (st : PlayerState) : List PEvent → PlayerState
  | [] => st
  | e :: es => runP (stepP st e) es

/-- The play-state invariant: the pending-chunk counter is never negative and
`isPlaying` holds exactly when it is positive. -/
def PlayerInv (st : PlayerState) : Prop :=
  0 ≤ st.pendingChunks ∧ (st.isPlaying = true ↔ 0 < st.pendingChunks)

/-- Deliver any due debounce timer callback: a `setTimeout` body runs once its
deadline has passed.  Returns the emitted VAD events. -/
def fireDue (st : PlayerState) (now : Nat) : PlayerState × List VadEvent :=
  let p1 :=
    match st.speechStartTimer with
    | some d =>
      if d ≤ now then (fireSpeechStart st, [VadEvent.speechStart]) else (st, [])
    | none => (st, [])
  let p2 :=
    match p1.1.speechEndTimer with
    | some d =>
      if d ≤ now then (fireSpeechEnd p1.1, [VadEvent.speechEnd]) else (p1.1, [])
    | none => (p1.1, [])
  (p2.1, p1.2 ++ p2.2)

/-- Process a list of timestamped microphone frames (`(time, level)` pairs,
one per ~100 ms `onAudioStream` callback) through the VAD, delivering due
timer callbacks before each frame and once more at the final observation time
`T`.  Returns the final state and the emitted speech-start/speech-end
events. -/
def runVadUntil (cfg : VadConfig) (st : PlayerState) :
    List (Nat × ℚ) → Nat → PlayerState × List VadEvent
  | [], T => fireDue st T
  | (t, level) :: rest, T =>
    let p1 := fireDue st t
    let st2 := processVAD cfg p1.1 t level
    let p2 := runVadUntil cfg st2 rest T
    (p2.1, p1.2 ++ p2.2)

end Player

/-- Who produced a transcript entry. -/
inductive Speaker
  | user
  | ai
  deriving Repr, DecidableEq

/-- One entry of the conversation log (`ConversationLog` in
`types/callSession.ts`). -/
structure ConversationLog where
  timestamp : Nat
  speaker : Speaker
  text : String
  deriving Repr, DecidableEq

namespace Gemini

/-- JS `String.prototype.trim`: strip leading and trailing whitespace
(structural definition so that concrete instances evaluate). -/
def jsTrim (s : String) : String :=
  String.mk
    (((s.data.dropWhile Char.isWhitespace).reverse.dropWhile
        Char.isWhitespace).reverse)

/-- Remove every whitespace character, the effect of the
`.replace` (regex all-whitespace to empty) cleanup in `finalizeUserInput`. -/
def stripWs (s : String) : String :=
  String.mk (s.data.filter (fun c => !c.isWhitespace))

/-- The mutable fields of `GeminiLiveService` that the message handler
touches (`ws`/`setupComplete` and debug counters are omitted; `Date.now()`
is the explicit `now` argument of the operations below). -/
structure GeminiState where
  conversationLogs : List ConversationLog
  currentAiResponse : String
  currentUserInput : String
  isInterrupted : Bool
  turnCount : Nat
  deriving Repr, DecidableEq

/-- Fresh service state. -/
def initGeminiState : GeminiState :=
  { conversationLogs := []
    currentAiResponse := ""
    currentUserInput := ""
    isInterrupted := false
    turnCount := 0 }

/-- One element of `serverContent.modelTurn.parts`: optional inline audio
data and optional text (absent or empty text is falsy in the source). -/
structure ServerPart where
  inlineData : Option String
  text : Option String
  deriving Repr, DecidableEq

/-- A decoded `serverContent` message.  The transcription fields hold the
extracted `transcription.text` (the source treats a missing `text` field as
the empty string, which it then skips — modelled by `some ""` behaving like
`none`). -/
structure ServerContent where
  modelTurn : Option (List ServerPart)
  inputTranscription : Option String
  outputTranscription : Option String
  turnComplete : Bool
  deriving Repr, DecidableEq

/-- A `turnComplete`-only message (no model turn, no transcription
fragments). -/
def bareTurnComplete : ServerContent :=
  { modelTurn := none
    inputTranscription := none
    outputTranscription := none
    turnComplete := true }

/-- Events the service emits upward. -/
inductive GEvent
  | audio (data : String)
  | text (t : String)
  | inputTranscript (t : String)
  | turnComplete
  | interrupted
  deriving Repr, DecidableEq

/-- Source `recordUserMessage`: drop blank text, otherwise append a trimmed user
entry. -/
def recordUserMessage (st : GeminiState) (now : Nat) (text : String) :
    GeminiState :=
  if jsTrim text = "" then st
  else
    { st with conversationLogs :=
        st.conversationLogs ++ [{ timestamp := now, speaker := Speaker.user,
                                  text := jsTrim text }] }

/-- Source `recordAiMessage`: drop blank text, otherwise append a trimmed AI
entry. -/
def recordAiMessage (st : GeminiState) (now : Nat) (text : String) :
    GeminiState :=
  if jsTrim text = "" then st
  else
    { st with conversationLogs :=
        st.conversationLogs ++ [{ timestamp := now, speaker := Speaker.ai,
                                  text := jsTrim text }] }

/-- Source `finalizeAiResponse`: flush the AI accumulator when it holds
non-whitespace text. -/
def finalizeAiResponse (st : GeminiState) (now : Nat) : GeminiState :=
  if jsTrim st.currentAiResponse ≠ "" then
    { recordAiMessage st now st.currentAiResponse with currentAiResponse := "" }
  else st

/-- Source `finalizeUserInput`: flush the user accumulator when it holds
non-whitespace text; the recorded text additionally has every internal
whitespace removed. -/
def finalizeUserInput (st : GeminiState) (now : Nat) : GeminiState :=
  if jsTrim st.currentUserInput ≠ "" then
    let cleanedInput := stripWs (jsTrim st.currentUserInput)
    { recordUserMessage st now cleanedInput with currentUserInput := "" }
  else st

/-- Handle one element of `modelTurn.parts`: inline audio emits `audio`,
non-empty text is accumulated and emitted. -/
def processPart (acc : GeminiState × List GEvent) (p : ServerPart) :
    GeminiState × List GEvent :=
  let acc1 :=
    match p.inlineData with
    | some d => (acc.1, acc.2 ++ [GEvent.audio d])
    | none => acc
  match p.text with
  | some t =>
    if t ≠ "" then
      ({ acc1.1 with currentAiResponse := acc1.1.currentAiResponse ++ t },
       acc1.2 ++ [GEvent.text t])
    else acc1
  | none => acc1

/-- Source `applyModelTurn`: the `message.serverContent.modelTurn` block. -/
def applyModelTurn (st : GeminiState) (mt : Option (List ServerPart)) :
    GeminiState × List GEvent :=
  match mt with
  | some parts => parts.foldl processPart (st, [])
  | none => (st, [])

/-- The `inputTranscription` block: non-empty fragments are buffered and
emitted. -/
def applyInputTranscription (acc : GeminiState × List GEvent)
    (tr : Option String) : GeminiState × List GEvent :=
  match tr with
  | some s =>
    if s ≠ "" then
      ({ acc.1 with currentUserInput := acc.1.currentUserInput ++ s },
       acc.2 ++ [GEvent.inputTranscript s])
    else acc
  | none => acc

/-- The `outputTranscription` block: non-empty fragments accumulate into the
AI response buffer (no event). -/
def applyOutputTranscription (acc : GeminiState × List GEvent)
    (tr : Option String) : GeminiState × List GEvent :=
  match tr with
  | some s =>
    if s ≠ "" then
      ({ acc.1 with currentAiResponse := acc.1.currentAiResponse ++ s }, acc.2)
    else acc
  | none => acc

/-- The `message.serverContent` branch of `handleMessage`.  While interrupted,
only `turnComplete` is inspected; otherwise parts and transcriptions are
processed and `turnComplete` finalizes both accumulators and bumps the turn
counter.  (The every-5-turns continuation reminder is sent with
`recordInHistory = false` and a `（`-prefixed text, so it touches no modelled
state.) -/
def handleServerContent (st : GeminiState) (now : Nat) (msg : ServerContent) :
    GeminiState × List GEvent :=
  if st.isInterrupted = true then
    if msg.turnComplete then
      ({ st with isInterrupted := false }, [GEvent.turnComplete])
    else (st, [])
  else
    let acc1 := applyModelTurn st msg.modelTurn
    let acc2 := applyInputTranscription acc1 msg.inputTranscription
    let acc3 := applyOutputTranscription acc2 msg.outputTranscription
    if msg.turnComplete then
      let st4 := finalizeUserInput acc3.1 now
      let st5 := finalizeAiResponse st4 now
      ({ st5 with turnCount := st5.turnCount + 1 },
       acc3.2 ++ [GEvent.turnComplete])
    else acc3

/-- Process a sequence of inbound `serverContent` messages. -/
def handleMessages (st : GeminiState) (now : Nat) :
    List ServerContent → GeminiState × List GEvent
  | [] => (st, [])
  | m :: rest =>
    let p1 := handleServerContent st now m
    let p2 := handleMessages p1.1 now rest
    (p2.1, p1.2 ++ p2.2)

/-- Source `sendInterrupt`: purely local — latch the interrupted flag and emit the
`interrupted` event. -/
def sendInterrupt (st : GeminiState) : GeminiState × List GEvent :=
  ({ st with isInterrupted := true }, [GEvent.interrupted])

end Gemini

namespace Mood

/-- JS `String.prototype.toLowerCase`, character by character (structural so
that concrete instances evaluate; agrees with the source on the Japanese
keyword table, which lower-casing leaves unchanged). -/
def jsToLower (s : String) : String :=
  String.mk (s.data.map Char.toLower)

/-- Whether `needle` occurs contiguously inside `hay` (JS `String.prototype.includes`,
over the character lists). -/
def listInfix (needle hay : List Char) : Bool :=
  match hay with
  | [] => needle.isEmpty
  | _ :: t => needle.isPrefixOf hay || listInfix needle t

/-- JS `combinedText.includes(keyword)`. -/
def jsIncludes (hay needle : String) : Bool :=
  listInfix needle.data hay.data

/-- The coarse mood classification of `types/conversationMood.ts`. -/
inductive ConversationMood
  | tired
  | happy
  | anxious
  | frustrated
  | calm
  | excited
  | sad
  | neutral
  deriving Repr, DecidableEq

/-- Source `MOOD_KEYWORDS`: the fixed keyword table. -/
def MOOD_KEYWORDS : ConversationMood → List String
  | .tired => ["疲れ", "眠い", "しんどい", "忙し", "大変", "きつい", "だるい",
               "へとへと", "くたくた", "ぐったり"]
  | .happy => ["嬉し", "楽し", "良かった", "よかった", "最高", "ありがと",
               "ハッピー", "幸せ", "うれし"]
  | .anxious => ["心配", "不安", "どうしよう", "怖い", "緊張", "ドキドキ",
                 "やばい", "まずい"]
  | .frustrated => ["むかつ", "イライラ", "最悪", "ひどい", "腹立", "ムカ",
                    "うざ", "いや"]
  | .calm => ["まあまあ", "普通", "ふつう", "いつも通り", "特に", "変わらない"]
  | .excited => ["楽しみ", "ワクワク", "やった", "すごい", "テンション", "早く"]
  | .sad => ["悲し", "辛い", "つらい", "泣", "寂し", "さみし", "落ち込", "へこ"]
  | .neutral => []

/-- Does any keyword of mood `m` occur in the combined text? -/
def moodMatches (combined : String) (m : ConversationMood) : Bool :=
  (MOOD_KEYWORDS m).any (fun keyword => jsIncludes combined keyword)

/-- The `priorityOrder` array of `inferMoodFromTexts` (negative moods
first). -/
def priorityOrder : List ConversationMood :=
  [.sad, .frustrated, .anxious, .tired, .excited, .happy, .calm, .neutral]

/-- The combined text, `recentTexts.join` with a space then `.toLowerCase`. -/
def combineTexts (texts : List String) : String :=
  jsToLower (String.intercalate " " texts)

/-- Source `inferMoodFromTexts`: first mood of `priorityOrder` with a keyword
occurring in the combined text, `neutral` otherwise. -/
def inferMoodFromTexts (recentTexts : List String) : ConversationMood :=
  let combinedText := combineTexts recentTexts
  match priorityOrder.find? (fun mood => moodMatches combinedText mood) with
  | some mood => mood
  | none => .neutral

/-- Source `GeminiLiveService.inferMood`: `conversationLogs.slice(-3)` — the three
most recent entries of either speaker — filtered to user entries, then fed to
`inferMoodFromTexts`. -/
def inferMood (logs : List ConversationLog) : ConversationMood :=
  inferMoodFromTexts
    (((logs.drop (logs.length - 3)).filter
        (fun l => l.speaker == Speaker.user)).map (fun l => l.text))

/-- The selection rule as the spec words it, written independently as a
cascade: first match in the order sad > frustrated > anxious > tired >
excited > happy > calm, `neutral` when no keyword matches. -/
def moodCascadeFromCombined (c : String) : ConversationMood :=
  if moodMatches c .sad then .sad
  else if moodMatches c .frustrated then .frustrated
  else if moodMatches c .anxious then .anxious
  else if moodMatches c .tired then .tired
  else if moodMatches c .excited then .excited
  else if moodMatches c .happy then .happy
  else if moodMatches c .calm then .calm
  else .neutral

/-- The spec-worded cascade over a list of texts. -/
def moodPriorityCascade (texts : List String) : ConversationMood :=
  moodCascadeFromCombined (combineTexts texts)

/-- The entry selection as the claim words it: the texts of the 3 most
recent user entries of the whole log. -/
def textsOfLastThreeUserEntries (logs : List ConversationLog) : List String :=
  let users := logs.filter (fun l => l.speaker == Speaker.user)
  (users.drop (users.length - 3)).map (fun l => l.text)

/-- A log whose most recent user entry is followed by three AI entries: the
sad user utterance has dropped out of `slice(-3)`. -/
def moodExampleLogs : List ConversationLog :=
  [{ timestamp := 0, speaker := Speaker.user, text := "今日は悲しいです" },
   { timestamp := 1, speaker := Speaker.ai, text := "そうですか" },
   { timestamp := 2, speaker := Speaker.ai, text := "なるほど" },
   { timestamp := 3, speaker := Speaker.ai, text := "はい" }]

end Mood

namespace Coord

/-- The `CallState` enumeration from `types/callSession.ts`. -/
inductive CallState
  | connecting
  | listening
  | userTalking
  | aiThinking
  | aiTalking
  | interrupted
  | ended
  deriving Repr, DecidableEq

/-- The refs of `useCallSession` that the barge-in path touches.  The two
silence timers are modelled as armed/disarmed flags. -/
structure CoordState where
  callState : CallState
  isInterrupting : Bool
  isTurnCompleting : Bool
  lightTimerArmed : Bool
  deepTimerArmed : Bool
  deriving Repr, DecidableEq

/-- Commands the speech-start handler issues to its collaborators: the
local `sendInterrupt()` of the transport and `interruptAI()` of the
audio coordinator (the stop-and-remint). -/
inductive CoordCmd
  | sendInterrupt
  | beginInterruptAI
  deriving Repr, DecidableEq

/-- The `onSpeechStart` callback of `useCallSession`: reset the silence
timers; while `AI_TALKING`, a second overlapping barge-in is rejected by the
`isInterruptingRef` guard, otherwise latch the guard, clear the
turn-completing latch, send the interrupt, enter `INTERRUPTED` and start
`interruptAI()`; outside `AI_TALKING` just enter `USER_TALKING`. -/
def onSpeechStart (st : CoordState) : CoordState × List CoordCmd :=
  let st := { st with lightTimerArmed := false, deepTimerArmed := false }
  if st.callState = CallState.aiTalking then
    if st.isInterrupting = true then (st, [])
    else
      ({ st with isInterrupting := true, isTurnCompleting := false,
                 callState := CallState.interrupted },
       [CoordCmd.sendInterrupt, CoordCmd.beginInterruptAI])
  else ({ st with callState := CallState.userTalking }, [])

/-- The `finally` continuation once `interruptAI()` settles: release the
guard and enter `USER_TALKING` unless the session ended meanwhile. -/
def onInterruptDone (st : CoordState) : CoordState :=
  { st with isInterrupting := false,
            callState := if st.callState = CallState.ended then CallState.ended
                         else CallState.userTalking }

/-- Deliver `n` consecutive speech-start events (no interrupt completion in
between), collecting the issued commands. -/
def runSpeechStarts (st : CoordState) : Nat → CoordState × List CoordCmd
  | 0 => (st, [])
  | n + 1 =>
    let p1 := onSpeechStart st
    let p2 := runSpeechStarts p1.1 n
    (p2.1, p1.2 ++ p2.2)

/-- What `endConversation` in `useCallSession` did, as observable effects. -/
structure EndConvResult where
  stoppedRecording : Bool
  disconnected : Bool
  requestedSummarization : Bool
  journal : Option (String × String × String)
  deriving Repr, DecidableEq

/-- Source `endConversation`: stop recording, read the conversation history, always
disconnect, and only when the history has at least 30 characters call the
summarization collaborator (`generate`), falling back to a raw-transcript
journal when it throws. -/
def endConversation (conversationHistory : String)
    (generate : String → Except String (String × String × String)) :
    EndConvResult :=
  if conversationHistory.length < 30 then
    { stoppedRecording := true, disconnected := true,
      requestedSummarization := false, journal := none }
  else
    match generate conversationHistory with
    | Except.ok j =>
      { stoppedRecording := true, disconnected := true,
        requestedSummarization := true, journal := some j }
    | Except.error _ =>
      { stoppedRecording := true, disconnected := true,
        requestedSummarization := true,
        journal := some ("日記生成エラー (自動保存)",
          "【AIによる生成に失敗しました。会話ログを保存します】\n\n" ++
            conversationHistory, "neutral") }

end Coord

namespace Rest

/-- What the parsing tail of one fetch produced (response body outcomes of
`generateJournal`). -/
inductive BodyResult
  | noText
  | noJson
  | journalJson (title summary emotion : Option String)
  deriving Repr, DecidableEq

/-- Network outcome of one attempt. -/
inductive FetchOutcome
  | netError
  | response (status : Nat) (body : BodyResult)
  deriving Repr, DecidableEq

/-- The errors one attempt can throw. -/
inductive AttemptError
  | network
  | client (status : Nat)
  | server (status : Nat)
  | noText
  | noJson
  deriving Repr, DecidableEq

/-- A parsed journal. -/
structure JournalData where
  title : String
  summary : String
  emotion : String
  deriving Repr, DecidableEq

/-- One iteration body of the retry loop in `generateJournal`:
`response.ok` is status 200–299; a non-ok status throws (client error for
4xx, server error otherwise) — both throws land in the same `catch`; an ok
body is parsed with `||`-defaults. -/
def attemptJournal : FetchOutcome → Except AttemptError JournalData
  | .netError => .error .network
  | .response status body =>
    if 200 ≤ status ∧ status ≤ 299 then
      match body with
      | .noText => .error .noText
      | .noJson => .error .noJson
      | .journalJson t s e =>
        .ok { title := t.getD "今日の日記", summary := s.getD "（要約なし）",
              emotion := e.getD "neutral" }
    else if 400 ≤ status ∧ status < 500 then .error (.client status)
    else .error (.server status)

/-- The trace of one `generateJournal` call. -/
structure GenRun where
  attemptsMade : Nat
  delays : List Nat
  result : Except AttemptError JournalData
  deriving Repr

/-- The backoff delay, `Math.pow(2, attempt - 1) * 1000`. -/
def genDelay (attempt : Nat) : Nat := 2 ^ (attempt - 1) * 1000

/-- The retry loop of `generateJournal`, unrolled:
any caught error before the last attempt waits `genDelay attempt` and
retries; after the third failure the last error is thrown.  Here
`outcomes n` is the response of the environment to attempt `n + 1`. -/
def generateJournal (outcomes : Nat → FetchOutcome) : GenRun :=
  match attemptJournal (outcomes 0) with
  | .ok j => { attemptsMade := 1, delays := [], result := .ok j }
  | .error _ =>
    match attemptJournal (outcomes 1) with
    | .ok j => { attemptsMade := 2, delays := [genDelay 1], result := .ok j }
    | .error _ =>
      match attemptJournal (outcomes 2) with
      | .ok j =>
        { attemptsMade := 3, delays := [genDelay 1, genDelay 2],
          result := .ok j }
      | .error e =>
        { attemptsMade := 3, delays := [genDelay 1, genDelay 2],
          result := .error e }

end Rest

section VadLemmas

open Player

/-- While the speech-start debounce is pending and the user is not yet marked
speaking, `processVAD` changes nothing: in particular an intervening
below-threshold frame does not reset the running timer. -/
theorem processVAD_armed_id (cfg : VadConfig) (st : PlayerState)
    (now : Nat) (level : ℚ) (d : Nat)
    (hws : st.wasSpeaking = false) (hst : st.speechStartTimer = some d)
    (het : st.speechEndTimer = none) :
    processVAD cfg st now level = st := by
  simp only [processVAD]
  split_ifs with h1 h2 h3 h4
  · rfl
  · rfl
  · cases st
    simp_all
  · simp_all
  · rfl

/-- Once the speaking flag is set and no timers are pending, frames above the
speech threshold leave the VAD state unchanged. -/
theorem processVAD_speaking_id (cfg : VadConfig) (st : PlayerState)
    (now : Nat) (level : ℚ)
    (hws : st.wasSpeaking = true) (hst : st.speechStartTimer = none)
    (het : st.speechEndTimer = none)
    (hth : cfg.silenceThreshold ≤ cfg.speechThreshold)
    (hlv : cfg.speechThreshold < level) :
    processVAD cfg st now level = st := by
  simp only [processVAD]
  split_ifs with h1 h2 h3 h4
  · rfl
  · rfl
  · simp_all
  · exfalso
    have : level < cfg.silenceThreshold := h4.1
    exact absurd (lt_trans hlv this) (not_lt.mpr hth)
  · rfl

theorem fireDue_no_timers (st : PlayerState) (now : Nat)
    (hst : st.speechStartTimer = none) (het : st.speechEndTimer = none) :
    fireDue st now = (st, []) := by
  simp [fireDue, hst, het]

theorem fireDue_armed_not_due (st : PlayerState) (now d : Nat)
    (hst : st.speechStartTimer = some d) (het : st.speechEndTimer = none)
    (hnd : now < d) :
    fireDue st now = (st, []) := by
  simp [fireDue, hst, het, Nat.not_le.mpr hnd]

theorem fireDue_armed_due (st : PlayerState) (now d : Nat)
    (hst : st.speechStartTimer = some d) (het : st.speechEndTimer = none)
    (hd : d ≤ now) :
    fireDue st now = (fireSpeechStart st, [VadEvent.speechStart]) := by
  simp [fireDue, fireSpeechStart, hst, het, hd]

/-- After speech start has fired, a tail of above-threshold frames produces
no further events. -/
theorem runVadUntil_speaking (cfg : VadConfig) (frames : List (Nat × ℚ))
    (T : Nat) (st : PlayerState)
    (hws : st.wasSpeaking = true) (hst : st.speechStartTimer = none)
    (het : st.speechEndTimer = none)
    (hth : cfg.silenceThreshold ≤ cfg.speechThreshold)
    (hlv : ∀ p ∈ frames, cfg.speechThreshold < p.2) :
    runVadUntil cfg st frames T = (st, []) := by
  induction frames with
  | nil => exact fireDue_no_timers st T hst het
  | cons p rest ih =>
    obtain ⟨t, level⟩ := p
    simp only [runVadUntil, fireDue_no_timers st t hst het,
      processVAD_speaking_id cfg st t level hws hst het hth
        (hlv (t, level) (by simp))]
    rw [ih (fun q hq => hlv q (by simp [hq]))]
    simp

/-- With the speech-start debounce armed for deadline `d` and every frame
above the speech threshold, exactly one speech-start event is emitted by any
run observed up to a time `T ≥ d`. -/
theorem runVadUntil_armed (cfg : VadConfig) (frames : List (Nat × ℚ))
    (T d : Nat) (st : PlayerState)
    (hws : st.wasSpeaking = false) (hst : st.speechStartTimer = some d)
    (het : st.speechEndTimer = none)
    (hth : cfg.silenceThreshold ≤ cfg.speechThreshold)
    (hlv : ∀ p ∈ frames, cfg.speechThreshold < p.2)
    (hT : d ≤ T) :
    (runVadUntil cfg st frames T).2 = [VadEvent.speechStart] := by
  induction frames generalizing st with
  | nil =>
    simp [runVadUntil, fireDue_armed_due st T d hst het hT]
  | cons p rest ih =>
    obtain ⟨t, level⟩ := p
    by_cases hdt : d ≤ t
    · have hfire := fireDue_armed_due st t d hst het hdt
      have hproc : processVAD cfg (fireSpeechStart st) t level =
          fireSpeechStart st :=
        processVAD_speaking_id cfg (fireSpeechStart st) t level
          (by simp [fireSpeechStart]) (by simp [fireSpeechStart])
          (by simp [fireSpeechStart, het]) hth (hlv (t, level) (by simp))
      have htail := runVadUntil_speaking cfg rest T (fireSpeechStart st)
        (by simp [fireSpeechStart]) (by simp [fireSpeechStart])
        (by simp [fireSpeechStart, het]) hth
        (fun q hq => hlv q (by simp [hq]))
      simp [runVadUntil, hfire, hproc, htail]
    · have hfire := fireDue_armed_not_due st t d hst het (Nat.not_le.mp hdt)
      have hproc := processVAD_armed_id cfg st t level d hws hst het
      simp only [runVadUntil, hfire, hproc]
      rw [ih st hws hst het (fun q hq => hlv q (by simp [hq]))]
      simp

/-- A first above-threshold frame while idle and unsuppressed arms the
speech-start debounce timer. -/
theorem processVAD_arms (cfg : Player.VadConfig) (st : Player.PlayerState)
    (now : Nat) (level : ℚ)
    (hp : st.pendingChunks ≤ 0) (ha : st.isAiPlaying = false)
    (hcool : st.lastPlaybackTime + 1500 ≤ now)
    (hlv : cfg.speechThreshold < level) (hws : st.wasSpeaking = false)
    (hst : st.speechStartTimer = none) :
    Player.processVAD cfg st now level =
      { st with speechEndTimer := none,
                speechStartTimer := some (now + cfg.speechDebounceMs) } := by
  simp only [Player.processVAD]
  split_ifs with h1 h2 h3
  · exfalso
    rcases h1 with h | h
    · omega
    · simp [ha] at h
  · omega
  · simp [hst]
  · exact absurd ⟨hlv, hws⟩ h3
  · exact absurd ⟨hlv, hws⟩ h3

end VadLemmas

section PlayerLemmas

open Player

theorem stepP_preserves_inv (st : PlayerState) (e : PEvent)
    (h : PlayerInv st) : PlayerInv (stepP st e) := by
  obtain ⟨h0, hp⟩ := h
  cases e with
  | playPre now len =>
    simp only [stepP, playAudioPre]
    split_ifs with h1 h2 h3 h4 <;>
      simp only [PlayerInv] <;> simp_all <;> omega
  | playPost now =>
    simp only [stepP, playAudioPost]
    split_ifs with h1 <;> simp only [PlayerInv] <;> simp_all <;> omega
  | stopPre =>
    simp only [stepP, stopPlayingPre]
    split_ifs with h1 <;> simp only [PlayerInv] <;> simp_all
  | stopPost =>
    simp only [stepP, stopPlayingPost]
    split_ifs with h1 <;> simp only [PlayerInv] <;> simp_all
  | interruptSet => exact ⟨h0, hp⟩
  | interruptFinish now => exact ⟨h0, hp⟩
  | turnCompleteFire now =>
    simp only [stepP, onTurnCompleteFire]
    split_ifs with h1 <;> simp only [PlayerInv] <;> simp_all

theorem runP_preserves_inv (es : List PEvent) (st : PlayerState)
    (h : PlayerInv st) : PlayerInv (runP st es) := by
  induction es generalizing st with
  | nil => exact h
  | cons e es ih => exact ih _ (stepP_preserves_inv st e h)

end PlayerLemmas

/-- C1: for every interleaving of the atomic segments of `playAudio`,
`stopPlaying`, `interruptAI` and `onTurnComplete` starting from the initial state of
the hook, `pendingChunkCounter` is never negative and `isPlaying` is true
exactly when the counter is positive. -/
theorem playState_invariant_all_interleavings (es : List Player.PEvent) :
    Player.PlayerInv (Player.runP Player.initPlayerState es) :=
  runP_preserves_inv es _ (by constructor <;> simp [Player.initPlayerState])

/-- C5: (1) a run of frames all above `speechThreshold`, starting idle and
unsuppressed and observed for at least `speechDebounceMs` past its first
frame, yields exactly one speech-start event; (2) a below-threshold frame
arriving while the speech-start debounce is pending does not reset the
timer. -/
theorem vad_speech_start_debounce :
    (∀ (cfg : Player.VadConfig) (st0 : Player.PlayerState) (t0 : Nat) (l0 : ℚ)
       (rest : List (Nat × ℚ)) (T : Nat),
       st0.pendingChunks ≤ 0 → st0.isAiPlaying = false →
       st0.lastPlaybackTime + 1500 ≤ t0 →
       st0.wasSpeaking = false → st0.speechStartTimer = none →
       st0.speechEndTimer = none →
       cfg.silenceThreshold ≤ cfg.speechThreshold →
       cfg.speechThreshold < l0 →
       (∀ p ∈ rest, cfg.speechThreshold < p.2) →
       t0 + cfg.speechDebounceMs ≤ T →
       (Player.runVadUntil cfg st0 ((t0, l0) :: rest) T).2 =
         [Player.VadEvent.speechStart]) ∧
    (∀ (cfg : Player.VadConfig) (st : Player.PlayerState) (now : Nat)
       (level : ℚ) (d : Nat),
       st.wasSpeaking = false → st.speechStartTimer = some d →
       st.speechEndTimer = none → level < cfg.silenceThreshold →
       (Player.processVAD cfg st now level).speechStartTimer = some d) := by
  constructor
  · intro cfg st0 t0 l0 rest T hp ha hcool hws hst het hth hl0 hlv hT
    have hfire := fireDue_no_timers st0 t0 hst het
    have harm := processVAD_arms cfg st0 t0 l0 hp ha hcool hl0 hws hst
    have htail := runVadUntil_armed cfg rest T (t0 + cfg.speechDebounceMs)
      { st0 with speechEndTimer := none,
                 speechStartTimer := some (t0 + cfg.speechDebounceMs) }
      (by simp [hws]) (by simp) (by simp) hth hlv hT
    simp [Player.runVadUntil, hfire, harm, htail]
  · intro cfg st now level d hws hst het _
    rw [processVAD_armed_id cfg st now level d hws hst het, hst]

/-- Witness for C5 at the `useCallSession` configuration: three half-level
frames at 2000/2100/2300 ms observed until 2300 ms produce one speech-start,
and a quiet frame at 2100 ms with the debounce armed for 2300 ms keeps the
timer. -/
theorem vad_speech_start_debounce_witness :
    (Player.runVadUntil Player.callSessionVadConfig Player.initPlayerState
        [(2000, 1/2), (2100, 1/2), (2300, 1/2)] 2300).2 =
      [Player.VadEvent.speechStart] ∧
    (Player.processVAD Player.callSessionVadConfig
        { Player.initPlayerState with speechStartTimer := some 2300 }
        2100 (1/100)).speechStartTimer = some 2300 :=
  ⟨vad_speech_start_debounce.1 Player.callSessionVadConfig
      Player.initPlayerState 2000 (1/2) [(2100, 1/2), (2300, 1/2)] 2300
      (by decide) rfl (by decide) rfl rfl rfl
      (by norm_num [Player.callSessionVadConfig])
      (by norm_num [Player.callSessionVadConfig])
      (by intro p hp; fin_cases hp <;>
            norm_num [Player.callSessionVadConfig]) (by decide),
   vad_speech_start_debounce.2 Player.callSessionVadConfig
      { Player.initPlayerState with speechStartTimer := some 2300 }
      2100 (1/100) 2300 rfl rfl rfl
      (by norm_num [Player.callSessionVadConfig])⟩

/-- C6: whenever an AI-audio chunk is queued or playing, or less than 1500 ms
have elapsed since the last playback ended, `processVAD` performs no
classification at all: the state (including both debounce timers) is returned
unchanged. -/
theorem vad_suppressed_no_classification (cfg : Player.VadConfig)
    (st : Player.PlayerState) (now : Nat) (level : ℚ)
    (h : 0 < st.pendingChunks ∨ st.isAiPlaying = true ∨
         now < st.lastPlaybackTime + 1500) :
    Player.processVAD cfg st now level = st := by
  simp only [Player.processVAD]
  split_ifs with h1 h2 h3 h4 <;> try rfl
  all_goals (exfalso; rcases h with h | h | h <;> simp_all)

/-- Witness for C6: with the AI-playing flag set, a loud frame is ignored
outright. -/
theorem vad_suppressed_no_classification_witness :
    Player.processVAD Player.callSessionVadConfig
      { Player.initPlayerState with isAiPlaying := true } 2000 (1/2) =
      { Player.initPlayerState with isAiPlaying := true } :=
  vad_suppressed_no_classification Player.callSessionVadConfig
    { Player.initPlayerState with isAiPlaying := true } 2000 (1/2)
    (Or.inr (Or.inl rfl))

/-- C7 counterexample: a short (here: empty) payload submitted from a clean
state leaves `isAiPlayingRef` set to `true`, so not all three play-state
flags return to their pre-call values as the claim states. -/
theorem playAudio_short_payload_counterexample :
    (Player.playAudioPre Player.initPlayerState 1000 0).1.isAiPlaying = true ∧
    Player.initPlayerState.isAiPlaying = false := by
  constructor <;> rfl

/-- C7 amended: a payload below the minimum byte length is rejected without a
native playback call; `pendingChunkCounter` is restored and `isPlaying` ends
up true exactly when the counter is positive, but the AI-playing flag is left
set to `true`. -/
theorem playAudio_short_payload_amended (st : Player.PlayerState)
    (now len : Nat) (hI : st.isInterrupted = false) (hlen : len < 100)
    (hp : 0 ≤ st.pendingChunks) :
    (Player.playAudioPre st now len).2 = none ∧
    (Player.playAudioPre st now len).1.pendingChunks = st.pendingChunks ∧
    ((Player.playAudioPre st now len).1.isPlaying = true ↔
      0 < st.pendingChunks) ∧
    (Player.playAudioPre st now len).1.isAiPlaying = true := by
  simp only [Player.playAudioPre, hI, Bool.false_eq_true, if_false,
    if_pos hlen]
  split_ifs with hc <;> refine ⟨rfl, ?_, ?_, rfl⟩ <;> simp_all <;> omega

section GeminiLemmas

open Gemini

theorem handleMessages_interrupted_no_tc (now : Nat)
    (msgs : List ServerContent) :
    ∀ st : GeminiState, st.isInterrupted = true →
      (∀ m ∈ msgs, m.turnComplete = false) →
      handleMessages st now msgs = (st, []) := by
  induction msgs with
  | nil => intro st _ _; rfl
  | cons m rest ih =>
    intro st h hall
    have hm : m.turnComplete = false := hall m (by simp)
    have h1 : handleServerContent st now m = (st, []) := by
      simp [handleServerContent, h, hm]
    simp [handleMessages, h1,
      ih st h (fun q hq => hall q (by simp [hq]))]

theorem processPart_fields (acc : GeminiState × List GEvent) (p : ServerPart) :
    (processPart acc p).1.conversationLogs = acc.1.conversationLogs ∧
    (processPart acc p).1.currentUserInput = acc.1.currentUserInput ∧
    (processPart acc p).1.isInterrupted = acc.1.isInterrupted ∧
    (processPart acc p).1.turnCount = acc.1.turnCount := by
  simp only [processPart]
  cases p.inlineData <;> cases p.text <;> simp <;> split_ifs <;> simp

theorem foldl_processPart_fields (parts : List ServerPart) :
    ∀ acc : GeminiState × List GEvent,
      (parts.foldl processPart acc).1.conversationLogs =
        acc.1.conversationLogs ∧
      (parts.foldl processPart acc).1.currentUserInput =
        acc.1.currentUserInput ∧
      (parts.foldl processPart acc).1.isInterrupted = acc.1.isInterrupted ∧
      (parts.foldl processPart acc).1.turnCount = acc.1.turnCount := by
  induction parts with
  | nil => intro acc; exact ⟨rfl, rfl, rfl, rfl⟩
  | cons p rest ih =>
    intro acc
    have h := processPart_fields acc p
    have h2 := ih (processPart acc p)
    refine ⟨?_, ?_, ?_, ?_⟩ <;>
      simp only [List.foldl_cons] <;>
      first
      | exact h2.1.trans h.1
      | exact h2.2.1.trans h.2.1
      | exact h2.2.2.1.trans h.2.2.1
      | exact h2.2.2.2.trans h.2.2.2

theorem applyModelTurn_fields (st : GeminiState)
    (mt : Option (List ServerPart)) :
    (applyModelTurn st mt).1.conversationLogs = st.conversationLogs ∧
    (applyModelTurn st mt).1.currentUserInput = st.currentUserInput ∧
    (applyModelTurn st mt).1.isInterrupted = st.isInterrupted ∧
    (applyModelTurn st mt).1.turnCount = st.turnCount := by
  cases mt with
  | none => exact ⟨rfl, rfl, rfl, rfl⟩
  | some parts => exact foldl_processPart_fields parts (st, [])

theorem applyInputTranscription_fields (acc : GeminiState × List GEvent)
    (tr : Option String) :
    (applyInputTranscription acc tr).1.conversationLogs =
      acc.1.conversationLogs ∧
    (applyInputTranscription acc tr).1.currentAiResponse =
      acc.1.currentAiResponse ∧
    (applyInputTranscription acc tr).1.isInterrupted = acc.1.isInterrupted ∧
    (applyInputTranscription acc tr).1.turnCount = acc.1.turnCount := by
  simp only [applyInputTranscription]
  cases tr <;> simp <;> split_ifs <;> simp

theorem applyOutputTranscription_fields (acc : GeminiState × List GEvent)
    (tr : Option String) :
    (applyOutputTranscription acc tr).1.conversationLogs =
      acc.1.conversationLogs ∧
    (applyOutputTranscription acc tr).1.currentUserInput =
      acc.1.currentUserInput ∧
    (applyOutputTranscription acc tr).1.isInterrupted = acc.1.isInterrupted ∧
    (applyOutputTranscription acc tr).1.turnCount = acc.1.turnCount := by
  simp only [applyOutputTranscription]
  cases tr <;> simp <;> split_ifs <;> simp

theorem jsTrim_empty : jsTrim "" = "" := rfl

theorem finalizeUserInput_spec (st : GeminiState) (now : Nat) :
    ∃ u, (finalizeUserInput st now).conversationLogs =
        st.conversationLogs ++ u ∧
      u.length ≤ 1 ∧ (∀ e ∈ u, e.speaker = Speaker.user) ∧
      jsTrim (finalizeUserInput st now).currentUserInput = "" ∧
      (finalizeUserInput st now).currentAiResponse = st.currentAiResponse ∧
      (finalizeUserInput st now).isInterrupted = st.isInterrupted := by
  by_cases h1 : jsTrim st.currentUserInput = ""
  · refine ⟨[], ?_⟩
    simp [finalizeUserInput, h1]
  · by_cases h2 : jsTrim (stripWs (jsTrim st.currentUserInput)) = ""
    · refine ⟨[], ?_⟩
      simp [finalizeUserInput, recordUserMessage, h1, h2, jsTrim_empty]
    · refine ⟨[{ timestamp := now, speaker := Speaker.user,
                 text := jsTrim (stripWs (jsTrim st.currentUserInput)) }], ?_⟩
      simp [finalizeUserInput, recordUserMessage, h1, h2, jsTrim_empty]

theorem finalizeAiResponse_spec (st : GeminiState) (now : Nat) :
    ∃ a, (finalizeAiResponse st now).conversationLogs =
        st.conversationLogs ++ a ∧
      a.length ≤ 1 ∧ (∀ e ∈ a, e.speaker = Speaker.ai) ∧
      jsTrim (finalizeAiResponse st now).currentAiResponse = "" ∧
      (finalizeAiResponse st now).currentUserInput = st.currentUserInput ∧
      (finalizeAiResponse st now).isInterrupted = st.isInterrupted := by
  by_cases h1 : jsTrim st.currentAiResponse = ""
  · refine ⟨[], ?_⟩
    simp [finalizeAiResponse, h1]
  · refine ⟨[{ timestamp := now, speaker := Speaker.ai,
               text := jsTrim st.currentAiResponse }], ?_⟩
    simp [finalizeAiResponse, recordAiMessage, h1, jsTrim_empty]

theorem finalizeUserInput_blank (st : GeminiState) (now : Nat)
    (h : jsTrim st.currentUserInput = "") : finalizeUserInput st now = st := by
  simp [finalizeUserInput, h]

theorem finalizeAiResponse_blank (st : GeminiState) (now : Nat)
    (h : jsTrim st.currentAiResponse = "") : finalizeAiResponse st now = st := by
  simp [finalizeAiResponse, h]

end GeminiLemmas

/-- C3: once `sendInterrupt()` has latched the interrupted flag, a stream of
`serverContent` messages without `turnComplete` is fully discarded — no
events, state (including both transcript accumulators) unchanged — and a
`turnComplete` message clears the flag and emits exactly the `turnComplete`
event. -/
theorem interrupted_suppression_until_turnComplete :
    (∀ (st : Gemini.GeminiState) (now : Nat)
       (msgs : List Gemini.ServerContent),
       (∀ m ∈ msgs, m.turnComplete = false) →
       Gemini.handleMessages (Gemini.sendInterrupt st).1 now msgs =
         ((Gemini.sendInterrupt st).1, [])) ∧
    (∀ (st : Gemini.GeminiState) (now : Nat) (m : Gemini.ServerContent),
       m.turnComplete = true →
       Gemini.handleServerContent (Gemini.sendInterrupt st).1 now m =
         ({ st with isInterrupted := false }, [Gemini.GEvent.turnComplete])) := by
  constructor
  · intro st now msgs hall
    exact handleMessages_interrupted_no_tc now msgs _ rfl hall
  · intro st now m hm
    simp [Gemini.handleServerContent, Gemini.sendInterrupt, hm]

/-- Witness for C3: one content-laden message is discarded while interrupted,
and a bare `turnComplete` clears the flag and fires. -/
theorem interrupted_suppression_witness :
    Gemini.handleMessages (Gemini.sendInterrupt Gemini.initGeminiState).1 5
        [{ modelTurn := some [{ inlineData := some "QUJD", text := some "やあ" }],
           inputTranscription := some "こん", outputTranscription := none,
           turnComplete := false }] =
      ((Gemini.sendInterrupt Gemini.initGeminiState).1, []) ∧
    Gemini.handleServerContent (Gemini.sendInterrupt Gemini.initGeminiState).1
        6 Gemini.bareTurnComplete =
      ({ Gemini.initGeminiState with isInterrupted := false },
       [Gemini.GEvent.turnComplete]) :=
  ⟨interrupted_suppression_until_turnComplete.1 Gemini.initGeminiState 5 _
      (by intro m hm; fin_cases hm; rfl),
   interrupted_suppression_until_turnComplete.2 Gemini.initGeminiState 6 _ rfl⟩

/-- C4 counterexample: a whitespace-only user accumulator is *not* reset by
`turnComplete` processing (it is left as is because the flush guard only
fires on non-whitespace content), contradicting the unconditional
"resets both accumulators" of the claim. -/
theorem turnComplete_reset_counterexample :
    (Gemini.handleServerContent
        { Gemini.initGeminiState with currentUserInput := " " } 0
        Gemini.bareTurnComplete).1.currentUserInput ≠ "" := by
  decide

/-- C4 amended: `turnComplete` appends at most one user and one AI entry,
leaves both accumulators whitespace-only (resetting any that held
non-whitespace text), keeps the interrupted flag clear, appends nothing when
both accumulators are whitespace-only, and hence a second `turnComplete` with
no intervening fragments appends no duplicate entries. -/
theorem turnComplete_flush_amended :
    (∀ (st : Gemini.GeminiState) (now : Nat) (msg : Gemini.ServerContent),
       st.isInterrupted = false → msg.turnComplete = true →
       ∃ u a, (Gemini.handleServerContent st now msg).1.conversationLogs =
           st.conversationLogs ++ u ++ a ∧
         u.length ≤ 1 ∧ a.length ≤ 1 ∧
         (∀ e ∈ u, e.speaker = Speaker.user) ∧
         (∀ e ∈ a, e.speaker = Speaker.ai)) ∧
    (∀ (st : Gemini.GeminiState) (now : Nat) (msg : Gemini.ServerContent),
       st.isInterrupted = false → msg.turnComplete = true →
       Gemini.jsTrim (Gemini.handleServerContent st now msg).1.currentUserInput = "" ∧
       Gemini.jsTrim (Gemini.handleServerContent st now msg).1.currentAiResponse = "" ∧
       (Gemini.handleServerContent st now msg).1.isInterrupted = false) ∧
    (∀ (st : Gemini.GeminiState) (now : Nat),
       st.isInterrupted = false → Gemini.jsTrim st.currentUserInput = "" →
       Gemini.jsTrim st.currentAiResponse = "" →
       (Gemini.handleServerContent st now
           Gemini.bareTurnComplete).1.conversationLogs =
         st.conversationLogs) ∧
    (∀ (st : Gemini.GeminiState) (now1 now2 : Nat)
       (msg : Gemini.ServerContent),
       st.isInterrupted = false → msg.turnComplete = true →
       (Gemini.handleServerContent
           (Gemini.handleServerContent st now1 msg).1 now2
           Gemini.bareTurnComplete).1.conversationLogs =
         (Gemini.handleServerContent st now1 msg).1.conversationLogs) := by
  have hmain : ∀ (st : Gemini.GeminiState) (now : Nat)
      (msg : Gemini.ServerContent),
      st.isInterrupted = false → msg.turnComplete = true →
      (∃ u a, (Gemini.handleServerContent st now msg).1.conversationLogs =
           st.conversationLogs ++ u ++ a ∧
         u.length ≤ 1 ∧ a.length ≤ 1 ∧
         (∀ e ∈ u, e.speaker = Speaker.user) ∧
         (∀ e ∈ a, e.speaker = Speaker.ai)) ∧
      Gemini.jsTrim (Gemini.handleServerContent st now msg).1.currentUserInput = "" ∧
      Gemini.jsTrim (Gemini.handleServerContent st now msg).1.currentAiResponse = "" ∧
      (Gemini.handleServerContent st now msg).1.isInterrupted = false := by
    intro st now msg hI htc
    simp only [Gemini.handleServerContent, hI, Bool.false_eq_true, if_false,
      htc, if_true]
    set acc1 := Gemini.applyModelTurn st msg.modelTurn with hacc1
    set acc2 := Gemini.applyInputTranscription acc1 msg.inputTranscription
      with hacc2
    set acc3 := Gemini.applyOutputTranscription acc2 msg.outputTranscription
      with hacc3
    have f1 := applyModelTurn_fields st msg.modelTurn
    have f2 := applyInputTranscription_fields acc1 msg.inputTranscription
    have f3 := applyOutputTranscription_fields acc2 msg.outputTranscription
    have hlogs3 : acc3.1.conversationLogs = st.conversationLogs := by
      rw [← hacc1] at f1
      exact (f3.1.trans f2.1).trans f1.1
    have hint3 : acc3.1.isInterrupted = false := by
      rw [← hacc1] at f1
      exact ((f3.2.2.1.trans f2.2.2.1).trans f1.2.2.1).trans hI
    obtain ⟨u, hu⟩ := finalizeUserInput_spec acc3.1 now
    obtain ⟨a, ha⟩ := finalizeAiResponse_spec (Gemini.finalizeUserInput acc3.1 now) now
    refine ⟨⟨u, a, ?_, hu.2.1, ha.2.1, hu.2.2.1, ha.2.2.1⟩, ?_, ?_, ?_⟩
    · simp only [ha.1, hu.1, hlogs3, List.append_assoc]
    · simp only [ha.2.2.2.2.1, hu.2.2.2.1]
    · exact ha.2.2.2.1
    · simp only [ha.2.2.2.2.2, hu.2.2.2.2.2, hint3]
  have hbare : ∀ (st : Gemini.GeminiState) (now : Nat),
      st.isInterrupted = false → Gemini.jsTrim st.currentUserInput = "" →
      Gemini.jsTrim st.currentAiResponse = "" →
      (Gemini.handleServerContent st now
          Gemini.bareTurnComplete).1.conversationLogs = st.conversationLogs := by
    intro st now hI hu ha
    simp only [Gemini.handleServerContent, hI, Bool.false_eq_true, if_false,
      Gemini.bareTurnComplete, Gemini.applyModelTurn,
      Gemini.applyInputTranscription, Gemini.applyOutputTranscription,
      if_true]
    rw [finalizeUserInput_blank st now hu, finalizeAiResponse_blank st now ha]
  refine ⟨fun st now msg hI htc => ((hmain st now msg hI htc).1),
          fun st now msg hI htc => ((hmain st now msg hI htc).2),
          hbare, ?_⟩
  intro st now1 now2 msg hI htc
  obtain ⟨hu, ha, hint⟩ := (hmain st now1 msg hI htc).2
  exact hbare (Gemini.handleServerContent st now1 msg).1 now2 hint hu ha

/-- Witness for the amended C4 theorem: a message carrying one user fragment
and one AI fragment plus `turnComplete` from a fresh state. -/
theorem turnComplete_flush_amended_witness :
    (∃ u a, (Gemini.handleServerContent Gemini.initGeminiState 7
          { modelTurn := some [{ inlineData := none, text := some "こんにちは" }],
            inputTranscription := some "やあ", outputTranscription := none,
            turnComplete := true }).1.conversationLogs =
        Gemini.initGeminiState.conversationLogs ++ u ++ a ∧
      u.length ≤ 1 ∧ a.length ≤ 1 ∧
      (∀ e ∈ u, e.speaker = Speaker.user) ∧
      (∀ e ∈ a, e.speaker = Speaker.ai)) ∧
    (Gemini.handleServerContent
        (Gemini.handleServerContent Gemini.initGeminiState 7
          { modelTurn := some [{ inlineData := none, text := some "こんにちは" }],
            inputTranscription := some "やあ", outputTranscription := none,
            turnComplete := true }).1 8
        Gemini.bareTurnComplete).1.conversationLogs =
      (Gemini.handleServerContent Gemini.initGeminiState 7
          { modelTurn := some [{ inlineData := none, text := some "こんにちは" }],
            inputTranscription := some "やあ", outputTranscription := none,
            turnComplete := true }).1.conversationLogs :=
  ⟨turnComplete_flush_amended.1 Gemini.initGeminiState 7 _ rfl rfl,
   turnComplete_flush_amended.2.2.2 Gemini.initGeminiState 7 8 _ rfl rfl⟩

/-- Witness for the amended C7 theorem at the initial state with an empty
payload. -/
theorem playAudio_short_payload_amended_witness :
    (Player.playAudioPre Player.initPlayerState 1000 0).2 = none ∧
    (Player.playAudioPre Player.initPlayerState 1000 0).1.pendingChunks =
      Player.initPlayerState.pendingChunks ∧
    ((Player.playAudioPre Player.initPlayerState 1000 0).1.isPlaying = true ↔
      0 < Player.initPlayerState.pendingChunks) ∧
    (Player.playAudioPre Player.initPlayerState 1000 0).1.isAiPlaying = true :=
  playAudio_short_payload_amended Player.initPlayerState 1000 0
    (by rfl) (by omega) (by simp [Player.initPlayerState])

section CoordLemmas

theorem runSpeechStarts_no_aiTalking : ∀ (n : Nat) (st : Coord.CoordState),
    st.callState ≠ Coord.CallState.aiTalking →
    (Coord.runSpeechStarts st n).2 = [] := by
  intro n
  induction n with
  | zero => intro st _; rfl
  | succ n ih =>
    intro st h
    have h1 : Coord.onSpeechStart st =
        ({ st with lightTimerArmed := false, deepTimerArmed := false,
                   callState := Coord.CallState.userTalking }, []) := by
      simp [Coord.onSpeechStart, h]
    simp only [Coord.runSpeechStarts, h1]
    simpa using ih _ (by simp)

end CoordLemmas

/-- C2: from `AI_TALKING` with no barge-in in progress, any burst of
consecutive speech-start events (no interrupt completion in between) issues
exactly one `sendInterrupt` and one `interruptAI` stop-and-remint; and a
speech-start arriving in `AI_TALKING` while the guard is latched is a
complete no-op command-wise. -/
theorem interruptAI_idempotent_under_overlap :
    (∀ (st : Coord.CoordState) (n : Nat),
       st.callState = Coord.CallState.aiTalking → st.isInterrupting = false →
       (Coord.runSpeechStarts st (n + 1)).2 =
         [Coord.CoordCmd.sendInterrupt, Coord.CoordCmd.beginInterruptAI]) ∧
    (∀ st : Coord.CoordState,
       st.callState = Coord.CallState.aiTalking → st.isInterrupting = true →
       (Coord.onSpeechStart st).2 = []) := by
  constructor
  · intro st n hcs hni
    have h1 : Coord.onSpeechStart st =
        ({ st with lightTimerArmed := false, deepTimerArmed := false,
                   isInterrupting := true, isTurnCompleting := false,
                   callState := Coord.CallState.interrupted },
         [Coord.CoordCmd.sendInterrupt, Coord.CoordCmd.beginInterruptAI]) := by
      simp [Coord.onSpeechStart, hcs, hni]
    simp only [Coord.runSpeechStarts, h1]
    simpa using runSpeechStarts_no_aiTalking n _ (by simp)
  · intro st hcs hni
    simp [Coord.onSpeechStart, hcs, hni]

/-- Witness for C2: a burst of three speech-starts from `AI_TALKING` issues
one interrupt pair; a guarded speech-start issues nothing. -/
theorem interruptAI_idempotent_witness :
    (Coord.runSpeechStarts
        { callState := Coord.CallState.aiTalking, isInterrupting := false,
          isTurnCompleting := true, lightTimerArmed := true,
          deepTimerArmed := true } 3).2 =
      [Coord.CoordCmd.sendInterrupt, Coord.CoordCmd.beginInterruptAI] ∧
    (Coord.onSpeechStart
        { callState := Coord.CallState.aiTalking, isInterrupting := true,
          isTurnCompleting := false, lightTimerArmed := false,
          deepTimerArmed := false }).2 = [] :=
  ⟨interruptAI_idempotent_under_overlap.1 _ 2 rfl rfl,
   interruptAI_idempotent_under_overlap.2 _ rfl rfl⟩

section MoodLemmas

open Mood

theorem moodMatches_neutral (c : String) :
    moodMatches c ConversationMood.neutral = false := rfl

theorem findMood_eq_cascade (c : String) :
    (match priorityOrder.find? (fun mood => moodMatches c mood) with
     | some mood => mood
     | none => ConversationMood.neutral) = moodCascadeFromCombined c := by
  simp only [priorityOrder, moodCascadeFromCombined]
  cases h1 : moodMatches c .sad <;>
  cases h2 : moodMatches c .frustrated <;>
  cases h3 : moodMatches c .anxious <;>
  cases h4 : moodMatches c .tired <;>
  cases h5 : moodMatches c .excited <;>
  cases h6 : moodMatches c .happy <;>
  cases h7 : moodMatches c .calm <;>
    simp [List.find?, h1, h2, h3, h4, h5, h6, h7, moodMatches_neutral]

end MoodLemmas

/-- C8 counterexample: on a log ending in three AI entries the
`slice(-3)`-then-filter of the source computes `neutral`, while the "3 most
recent human entries" rule of the claim would see the sad utterance and
compute `sad`. -/
theorem mood_recent_user_entries_counterexample :
    Mood.inferMood Mood.moodExampleLogs = Mood.ConversationMood.neutral ∧
    Mood.moodPriorityCascade
        (Mood.textsOfLastThreeUserEntries Mood.moodExampleLogs) =
      Mood.ConversationMood.sad := by
  constructor <;> rfl

/-- C8 amended: the mood is the priority cascade of the spec (sad > frustrated >
anxious > tired > excited > happy > calm, else neutral) applied to the user
entries *among the 3 most recent transcript entries of either speaker*, not
to the 3 most recent user entries. -/
theorem mood_inference_amended (logs : List ConversationLog) :
    Mood.inferMood logs =
      Mood.moodPriorityCascade
        (((logs.drop (logs.length - 3)).filter
            (fun l => l.speaker == Speaker.user)).map (fun l => l.text)) := by
  simp only [Mood.inferMood, Mood.inferMoodFromTexts, Mood.moodPriorityCascade]
  exact findMood_eq_cascade _

/-- C9: the code bug evaluated — an HTTP 404 (4xx) response is caught by the
same `catch` of the retry loop like any other failure, so all 3 attempts run
with the 1 s and 2 s backoff waits, although the comment in the code itself
(and the spec) say 4xx responses are not retried. -/
theorem rest_4xx_retried_code_bug :
    Rest.generateJournal
        (fun _ => Rest.FetchOutcome.response 404 Rest.BodyResult.noText) =
      { attemptsMade := 3, delays := [1000, 2000],
        result := Except.error (Rest.AttemptError.client 404) } := rfl

/-- C10: `endConversation` resolves to `null` and requests no summarization
when the history is shorter than 30 characters; recording is stopped and the
session disconnected regardless of the length. -/
theorem endConversation_short_history :
    (∀ (h : String)
       (g : String → Except String (String × String × String)),
       h.length < 30 →
       (Coord.endConversation h g).journal = none ∧
       (Coord.endConversation h g).requestedSummarization = false ∧
       (Coord.endConversation h g).stoppedRecording = true ∧
       (Coord.endConversation h g).disconnected = true) ∧
    (∀ (h : String)
       (g : String → Except String (String × String × String)),
       (Coord.endConversation h g).stoppedRecording = true ∧
       (Coord.endConversation h g).disconnected = true) := by
  constructor
  · intro h g hlen
    simp [Coord.endConversation, hlen]
  · intro h g
    by_cases hlen : h.length < 30
    · simp [Coord.endConversation, hlen]
    · simp only [Coord.endConversation, hlen, if_false]
      cases g h <;> simp

/-- Witness for C10 at a 5-character history with a failing summarizer. -/
theorem endConversation_short_history_witness :
    (Coord.endConversation "こんにちは"
        (fun _ => Except.error "down")).journal = none ∧
    (Coord.endConversation "こんにちは"
        (fun _ => Except.error "down")).requestedSummarization = false ∧
    (Coord.endConversation "こんにちは"
        (fun _ => Except.error "down")).stoppedRecording = true ∧
    (Coord.endConversation "こんにちは"
        (fun _ => Except.error "down")).disconnected = true :=
  endConversation_short_history.1 "こんにちは" (fun _ => Except.error "down")
    (by decide)
